import Mathlib

/-
  Verification of the PM dashboard metrics engine (src/pm_dashboard.py).

  The numeric columns of the project-data table are modelled as rational
  numbers; a data frame is a list of task records.  Each function below is
  a direct translation of the corresponding Python function.
-/

namespace PMDashboard

/-- One row of the project-data table (the raw input columns used by the
    metrics engine, allocation analyzer and risk aggregator). -/
structure TaskRecord where
  task_name : String
  department : String
  resource_name : String
  status : String
  risk_level : Nat
  planned_value : ℚ
  actual_cost : ℚ
  earned_value : ℚ
deriving Repr, DecidableEq

/-- A task record after `calculate_evm_metrics` has attached the CPI and
    SPI columns. -/
structure EvmRecord where
  base : TaskRecord
  cpi : ℚ
  spi : ℚ
deriving Repr, DecidableEq

/-- A task record after `calculate_eac` has attached the EAC and
    Variance_at_Completion columns. -/
structure EacRecord where
  base : TaskRecord
  cpi : ℚ
  spi : ℚ
  eac : ℚ
  variance_at_completion : ℚ
deriving Repr, DecidableEq

/-- The pandas `Series.replace(0, 1)` applied to one entry of a numeric
    column: a zero divisor is replaced by 1 before dividing. -/
def replaceZeroWithOne (x : ℚ) : ℚ :=
  if x = 0 then 1 else x

/-- `calculate_evm_metrics`: adds the columns
    `CPI = Earned_Value / Actual_Cost.replace(0, 1)` and
    `SPI = Earned_Value / Planned_Value.replace(0, 1)`. -/
def calculate_evm_metrics (df : List TaskRecord) : List EvmRecord :=
  df.map fun r =>
    { base := r
      cpi := r.earned_value / replaceZeroWithOne r.actual_cost
      spi := r.earned_value / replaceZeroWithOne r.planned_value }

/-- `calculate_eac`: adds the columns
    `EAC = Planned_Value / CPI.replace(0, 1)` and
    `Variance_at_Completion = Planned_Value - EAC`. -/
def calculate_eac (df : List EvmRecord) : List EacRecord :=
  df.map fun r =>
    { base := r.base
      cpi := r.cpi
      spi := r.spi
      eac := r.base.planned_value / replaceZeroWithOne r.cpi
      variance_at_completion :=
        r.base.planned_value - r.base.planned_value / replaceZeroWithOne r.cpi }

/-- `total_ev = df['Earned_Value'].sum()` in
    `generate_project_health_scorecard`. -/
def total_ev (df : List TaskRecord) : ℚ :=
  (df.map TaskRecord.earned_value).sum

/-- `total_ac = df['Actual_Cost'].sum()`. -/
def total_ac (df : List TaskRecord) : ℚ :=
  (df.map TaskRecord.actual_cost).sum

/-- `total_pv = df['Planned_Value'].sum()`. -/
def total_pv (df : List TaskRecord) : ℚ :=
  (df.map TaskRecord.planned_value).sum

/-- `overall_cpi = total_ev / total_ac if total_ac else 0`
    (a zero total is falsy in Python, so it yields 0 directly). -/
def overall_cpi (df : List TaskRecord) : ℚ :=
  if total_ac df = 0 then 0 else total_ev df / total_ac df

/-- `overall_spi = total_ev / total_pv if total_pv else 0`. -/
def overall_spi (df : List TaskRecord) : ℚ :=
  if total_pv df = 0 then 0 else total_ev df / total_pv df

/-- `overall_eac = total_pv / overall_cpi if overall_cpi else 0`. -/
def overall_eac (df : List TaskRecord) : ℚ :=
  if overall_cpi df = 0 then 0 else total_pv df / overall_cpi df

/-- `variance_at_completion = total_pv - overall_eac`. -/
def overall_vac (df : List TaskRecord) : ℚ :=
  total_pv df - overall_eac df

/-- `active_tasks = df[df['Status'] == 'In Progress']` in
    `identify_overallocated_resources`. -/
def active_tasks (df : List TaskRecord) : List TaskRecord :=
  df.filter fun r => decide (r.status = "In Progress")

/-- The number of active (In Progress) tasks assigned to one resource:
    one entry of `active_tasks['Resource_Name'].value_counts()`. -/
def active_task_count (df : List TaskRecord) (name : String) : Nat :=
  ((active_tasks df).filter fun r => decide (r.resource_name = name)).length

/-- `active_tasks['Resource_Name'].value_counts()`: one row per distinct
    resource appearing among the active tasks, paired with its count,
    sorted by descending count. -/
def resource_counts (df : List TaskRecord) : List (String × Nat) :=
  (((active_tasks df).map TaskRecord.resource_name).dedup.map
    fun n => (n, active_task_count df n)).mergeSort
    fun a b => decide (b.2 ≤ a.2)

/-- `identify_overallocated_resources`: returns the per-resource counts
    together with the subset where `Active_Tasks > 3`. -/
def identify_overallocated_resources (df : List TaskRecord) :
    List (String × Nat) × List (String × Nat) :=
  (resource_counts df,
   (resource_counts df).filter fun p => decide (3 < p.2))

/-- The grouping key of `df.groupby(['Department', 'Risk_Level'])` in
    `generate_risk_heatmap`. -/
def risk_key (r : TaskRecord) : String × Nat :=
  (r.department, r.risk_level)

/-- One cell of the risk matrix: the number of records with the given
    department and risk level (`groupby([...]).size()`, with
    `unstack(fill_value=0)` making absent combinations zero). -/
def risk_cell (df : List TaskRecord) (d : String) (l : Nat) : Nat :=
  (df.filter fun r => decide (r.department = d ∧ r.risk_level = l)).length

/-- The distinct (department, risk level) pairs occurring in the data:
    the populated keys of the grouped risk matrix. -/
def risk_keys (df : List TaskRecord) : List (String × Nat) :=
  (df.map risk_key).dedup

/-- One milestone entry of `milestones.json`; `completion_date` is `none`
    when the JSON field is null/absent. -/
structure MilestoneRecord where
  name : String
  owner : String
  target_date : String
  completion_date : Option String
  status : String
deriving Repr, DecidableEq

/-- The status-icon lookup of `display_milestone_status`:
    `{'Completed': '✅', 'In Progress': '🔄', 'Not Started': '⏳'}.get(status, '❓')`. -/
def status_icon (s : String) : String :=
  if s = "Completed" then "✅"
  else if s = "In Progress" then "🔄"
  else if s = "Not Started" then "⏳"
  else "❓"

/-- `milestone['completion_date'] or 'N/A'`: a null/absent (or empty,
    hence falsy) completion date renders as the sentinel string. -/
def render_completion_date (d : Option String) : String :=
  match d with
  | none => "N/A"
  | some s => if s = "" then "N/A" else s

/-- One row of the milestone table built by `display_milestone_status`. -/
def milestone_row (m : MilestoneRecord) : List String :=
  [m.name, m.owner, m.target_date,
   render_completion_date m.completion_date,
   status_icon m.status ++ " " ++ m.status]

/-- The milestone table of `display_milestone_status`. -/
def display_milestone_status (ms : List MilestoneRecord) :
    List (List String) :=
  ms.map milestone_row

/-- The worked example of the spec: two records with
    (EV, AC, PV) = (100, 50, 100) and (80, 100, 100). -/
def exampleDf : List TaskRecord :=
  [⟨"Task A", "Eng", "Alice", "In Progress", 1, 100, 50, 100⟩,
   ⟨"Task B", "Eng", "Bob", "In Progress", 1, 100, 100, 80⟩]

/-- A concrete allocation scenario: four In Progress tasks for Alice,
    three for Bob, plus a completed task that must not be counted. -/
def allocationDf : List TaskRecord :=
  [⟨"T1", "Eng", "Alice", "In Progress", 1, 1, 1, 1⟩,
   ⟨"T2", "Eng", "Alice", "In Progress", 1, 1, 1, 1⟩,
   ⟨"T3", "Eng", "Alice", "In Progress", 1, 1, 1, 1⟩,
   ⟨"T4", "Eng", "Alice", "In Progress", 1, 1, 1, 1⟩,
   ⟨"T5", "Eng", "Bob", "In Progress", 1, 1, 1, 1⟩,
   ⟨"T6", "Eng", "Bob", "In Progress", 1, 1, 1, 1⟩,
   ⟨"T7", "Eng", "Bob", "In Progress", 1, 1, 1, 1⟩,
   ⟨"T8", "Eng", "Bob", "Completed", 1, 1, 1, 1⟩]

end PMDashboard

namespace PMDashboard

/-- Claim C1: for every task record processed by `calculate_evm_metrics`,
    CPI is earned value divided by actual cost and SPI is earned value
    divided by planned value, each with divisor 1 substituted for a zero
    divisor; in particular CPI equals the earned value when the actual
    cost is zero, and SPI equals the earned value when the planned value
    is zero. -/
theorem evm_metrics_zero_substitution (df : List TaskRecord)
    (r : EvmRecord) (hr : r ∈ calculate_evm_metrics df) :
    r.cpi = r.base.earned_value /
      (if r.base.actual_cost = 0 then 1 else r.base.actual_cost) ∧
    r.spi = r.base.earned_value /
      (if r.base.planned_value = 0 then 1 else r.base.planned_value) ∧
    (r.base.actual_cost = 0 → r.cpi = r.base.earned_value) ∧
    (r.base.planned_value = 0 → r.spi = r.base.earned_value) := by
  simp only [calculate_evm_metrics, List.mem_map] at hr
  obtain ⟨t, -, rfl⟩ := hr
  refine ⟨rfl, rfl, fun h => ?_, fun h => ?_⟩
  · have h' : t.actual_cost = 0 := h
    simp [h', replaceZeroWithOne]
  · have h' : t.planned_value = 0 := h
    simp [h', replaceZeroWithOne]

/-- Witness for C1: the zero-substitution law evaluated on a concrete
    record with zero actual cost and zero planned value. -/
theorem evm_metrics_zero_substitution_witness :
    ∃ r ∈ calculate_evm_metrics [⟨"t", "d", "n", "s", 1, 0, 0, 7⟩],
      r.cpi = 7 ∧ r.spi = 7 := by
  refine ⟨_, List.mem_map_of_mem _ (List.mem_singleton.mpr rfl), ?_, ?_⟩
  · exact ((evm_metrics_zero_substitution
      [⟨"t", "d", "n", "s", 1, 0, 0, 7⟩] _
      (List.mem_map_of_mem _ (List.mem_singleton.mpr rfl))).2.2.1 rfl)
  · exact ((evm_metrics_zero_substitution
      [⟨"t", "d", "n", "s", 1, 0, 0, 7⟩] _
      (List.mem_map_of_mem _ (List.mem_singleton.mpr rfl))).2.2.2 rfl)

/-- Claim C2: the aggregate indices use a raw-zero-yields-zero policy,
    distinct from the per-record divisor substitution: each overall index
    is the corresponding quotient of totals when its divisor is nonzero and
    is 0 outright when the divisor is zero. -/
theorem aggregate_zero_policy (df : List TaskRecord) :
    (total_ac df ≠ 0 → overall_cpi df = total_ev df / total_ac df) ∧
    (total_ac df = 0 → overall_cpi df = 0) ∧
    (total_pv df ≠ 0 → overall_spi df = total_ev df / total_pv df) ∧
    (total_pv df = 0 → overall_spi df = 0) ∧
    (overall_cpi df ≠ 0 → overall_eac df = total_pv df / overall_cpi df) ∧
    (overall_cpi df = 0 → overall_eac df = 0) := by
  refine ⟨fun h => ?_, fun h => ?_, fun h => ?_, fun h => ?_, fun h => ?_,
    fun h => ?_⟩
  · rw [overall_cpi, if_neg h]
  · rw [overall_cpi, if_pos h]
  · rw [overall_spi, if_neg h]
  · rw [overall_spi, if_pos h]
  · rw [overall_eac, if_neg h]
  · rw [overall_eac, if_pos h]

/-- Witness for C2: the aggregate zero policy evaluated on a one-record
    collection with nonzero totals and on one whose totals are all zero. -/
theorem aggregate_zero_policy_witness :
    overall_cpi [⟨"t", "d", "n", "s", 1, 100, 50, 100⟩] =
      total_ev [⟨"t", "d", "n", "s", 1, 100, 50, 100⟩] /
        total_ac [⟨"t", "d", "n", "s", 1, 100, 50, 100⟩] ∧
    overall_cpi [⟨"t", "d", "n", "s", 1, 0, 0, 0⟩] = 0 ∧
    overall_eac [⟨"t", "d", "n", "s", 1, 0, 0, 0⟩] = 0 :=
  ⟨(aggregate_zero_policy [⟨"t", "d", "n", "s", 1, 100, 50, 100⟩]).1
      (by norm_num [total_ac]),
    (aggregate_zero_policy [⟨"t", "d", "n", "s", 1, 0, 0, 0⟩]).2.1
      (by simp [total_ac]),
    (aggregate_zero_policy [⟨"t", "d", "n", "s", 1, 0, 0, 0⟩]).2.2.2.2.2
      (by simp [overall_cpi, total_ac])⟩

/-- Claim C3: for every record produced by `calculate_eac`, EAC is the
    planned value divided by the record's CPI with divisor 1 substituted
    when CPI is zero; in particular EAC equals the planned value when the
    record's CPI is zero. -/
theorem eac_zero_substitution (edf : List EvmRecord) (r : EacRecord)
    (hr : r ∈ calculate_eac edf) :
    r.eac = r.base.planned_value / (if r.cpi = 0 then 1 else r.cpi) ∧
    (r.cpi = 0 → r.eac = r.base.planned_value) := by
  simp only [calculate_eac, List.mem_map] at hr
  obtain ⟨t, -, rfl⟩ := hr
  refine ⟨rfl, fun h => ?_⟩
  have h' : t.cpi = 0 := h
  simp [h', replaceZeroWithOne]

/-- Witness for C3: EAC evaluated on a concrete enriched record whose CPI
    is zero yields the planned value. -/
theorem eac_zero_substitution_witness :
    ∃ r ∈ calculate_eac [⟨⟨"t", "d", "n", "s", 1, 40, 3, 0⟩, 0, 0⟩],
      r.eac = 40 :=
  ⟨_, List.mem_map_of_mem _ (List.mem_singleton.mpr rfl),
    (eac_zero_substitution [⟨⟨"t", "d", "n", "s", 1, 40, 3, 0⟩, 0, 0⟩] _
      (List.mem_map_of_mem _ (List.mem_singleton.mpr rfl))).2 rfl⟩

/-- Claim C4: variance at completion is exactly planned value minus EAC,
    for every record produced by `calculate_eac` and for the aggregate
    scalars of the scorecard. -/
theorem vac_is_pv_minus_eac (df : List TaskRecord) (edf : List EvmRecord)
    (r : EacRecord) (hr : r ∈ calculate_eac edf) :
    r.variance_at_completion = r.base.planned_value - r.eac ∧
    overall_vac df = total_pv df - overall_eac df := by
  simp only [calculate_eac, List.mem_map] at hr
  obtain ⟨t, -, rfl⟩ := hr
  exact ⟨rfl, rfl⟩

/-- Witness for C4: the VAC identity evaluated on a concrete record and a
    concrete collection. -/
theorem vac_is_pv_minus_eac_witness :
    ∃ r ∈ calculate_eac [⟨⟨"t", "d", "n", "s", 1, 40, 3, 0⟩, 2, 1⟩],
      r.variance_at_completion = r.base.planned_value - r.eac ∧
      overall_vac [⟨"t", "d", "n", "s", 1, 40, 3, 0⟩] =
        total_pv [⟨"t", "d", "n", "s", 1, 40, 3, 0⟩] -
          overall_eac [⟨"t", "d", "n", "s", 1, 40, 3, 0⟩] :=
  ⟨_, List.mem_map_of_mem _ (List.mem_singleton.mpr rfl),
    vac_is_pv_minus_eac [⟨"t", "d", "n", "s", 1, 40, 3, 0⟩]
      [⟨⟨"t", "d", "n", "s", 1, 40, 3, 0⟩, 2, 1⟩] _
      (List.mem_map_of_mem _ (List.mem_singleton.mpr rfl))⟩

/-- Claim C5: on the two-record example the engine produces per-record CPI
    values [2, 0.8], totals 180 / 150 / 200, overall CPI 1.2, overall SPI
    0.9, overall EAC 200 / 1.2 = 500/3 (≈ 166.67) and overall VAC 100/3
    (≈ 33.33). -/
theorem example_scorecard :
    (calculate_evm_metrics exampleDf).map EvmRecord.cpi = [2, 4/5] ∧
    total_ev exampleDf = 180 ∧
    total_ac exampleDf = 150 ∧
    total_pv exampleDf = 200 ∧
    overall_cpi exampleDf = 6/5 ∧
    overall_spi exampleDf = 9/10 ∧
    overall_eac exampleDf = 200 / (6/5) ∧
    overall_eac exampleDf = 500/3 ∧
    overall_vac exampleDf = 100/3 := by
  norm_num [exampleDf, calculate_evm_metrics, total_ev, total_ac, total_pv,
    overall_cpi, overall_spi, overall_eac, overall_vac, replaceZeroWithOne]

/-- Claim C9: the metric computations return new derived data and leave
    the pre-existing fields and rows of their input unchanged: projecting
    the output of `calculate_evm_metrics` back to the raw record gives the
    input list, `calculate_eac` preserves the base record and the CPI and
    SPI columns it received, and both preserve the number of rows. -/
theorem metrics_preserve_input (df : List TaskRecord)
    (edf : List EvmRecord) :
    (calculate_evm_metrics df).map EvmRecord.base = df ∧
    (calculate_eac edf).map EacRecord.base = edf.map EvmRecord.base ∧
    (calculate_eac edf).map EacRecord.cpi = edf.map EvmRecord.cpi ∧
    (calculate_eac edf).map EacRecord.spi = edf.map EvmRecord.spi ∧
    (calculate_evm_metrics df).length = df.length ∧
    (calculate_eac edf).length = edf.length := by
  simp [calculate_evm_metrics, calculate_eac, List.map_map,
    Function.comp_def]

/-- Claim C10: when the actual costs sum to zero, the aggregate policy
    yields overall CPI 0, hence overall EAC 0, and the reported variance
    at completion equals the entire planned budget. -/
theorem zero_total_ac_vac_is_budget (df : List TaskRecord)
    (h : total_ac df = 0) :
    overall_cpi df = 0 ∧ overall_eac df = 0 ∧
    overall_vac df = total_pv df := by
  have h1 : overall_cpi df = 0 := by simp [overall_cpi, h]
  have h2 : overall_eac df = 0 := by simp [overall_eac, h1]
  exact ⟨h1, h2, by simp [overall_vac, h2]⟩

/-- Witness for C10: a one-record collection with zero actual cost reports
    the full planned budget as its variance at completion. -/
theorem zero_total_ac_vac_is_budget_witness :
    overall_cpi [⟨"t", "d", "n", "s", 1, 250, 0, 30⟩] = 0 ∧
    overall_eac [⟨"t", "d", "n", "s", 1, 250, 0, 30⟩] = 0 ∧
    overall_vac [⟨"t", "d", "n", "s", 1, 250, 0, 30⟩] =
      total_pv [⟨"t", "d", "n", "s", 1, 250, 0, 30⟩] :=
  zero_total_ac_vac_is_budget [⟨"t", "d", "n", "s", 1, 250, 0, 30⟩]
    (by simp [total_ac])

/-- A pair belongs to the value-counts table exactly when its name occurs
    among the active tasks and its count is that name's active-task count. -/
lemma mem_resource_counts (df : List TaskRecord) (p : String × Nat) :
    p ∈ resource_counts df ↔
      p.1 ∈ (active_tasks df).map TaskRecord.resource_name ∧
      p.2 = active_task_count df p.1 := by
  unfold resource_counts
  rw [List.mem_mergeSort, List.mem_map]
  constructor
  · rintro ⟨n, hn, rfl⟩
    exact ⟨List.mem_dedup.mp hn, rfl⟩
  · rintro ⟨h1, h2⟩
    refine ⟨p.1, List.mem_dedup.mpr h1, ?_⟩
    cases p
    simp only at h2
    rw [h2]

/-- Claim C6: the overallocated subset is exactly the resources whose
    In Progress task count exceeds 3: a resource with exactly 4 active
    tasks appears in it, one with exactly 3 does not. -/
theorem overallocation_boundary (df : List TaskRecord) (name : String) :
    (active_task_count df name = 4 →
      (name, 4) ∈ (identify_overallocated_resources df).2) ∧
    (active_task_count df name = 3 →
      ∀ c, (name, c) ∉ (identify_overallocated_resources df).2) := by
  constructor
  · intro h4
    have hpos : 0 < active_task_count df name := by omega
    obtain ⟨r, hr⟩ := List.exists_mem_of_length_pos hpos
    have hrmem : r ∈ active_tasks df := (List.mem_filter.mp hr).1
    have hrname : r.resource_name = name := by
      have := (List.mem_filter.mp hr).2
      simpa using this
    have hmem1 : name ∈ (active_tasks df).map TaskRecord.resource_name :=
      hrname ▸ List.mem_map_of_mem _ hrmem
    have hrc : (name, 4) ∈ resource_counts df :=
      (mem_resource_counts df (name, 4)).mpr ⟨hmem1, h4.symm⟩
    exact List.mem_filter.mpr ⟨hrc, by simp⟩
  · intro h3 c hc
    have hmem := List.mem_filter.mp hc
    have hrc := (mem_resource_counts df (name, c)).mp hmem.1
    have hc3 : c = 3 := by
      have := hrc.2
      simp only at this
      omega
    have hgt : 3 < c := by simpa using hmem.2
    omega

/-- Witness for C6: with four In Progress tasks for Alice and three for
    Bob, Alice is flagged overallocated and Bob is not. -/
theorem overallocation_boundary_witness :
    active_task_count allocationDf "Alice" = 4 ∧
    active_task_count allocationDf "Bob" = 3 ∧
    ("Alice", 4) ∈ (identify_overallocated_resources allocationDf).2 ∧
    (∀ c, ("Bob", c) ∉ (identify_overallocated_resources allocationDf).2) :=
  ⟨by decide, by decide,
    (overallocation_boundary allocationDf "Alice").1 (by decide),
    (overallocation_boundary allocationDf "Bob").2 (by decide)⟩

/-- Filtering by equality of a projected key counts the key's occurrences
    in the projected list. -/
lemma length_filter_eq_count {α β : Type} [DecidableEq β] (f : α → β)
    (l : List α) (b : β) :
    (l.filter fun a => decide (f a = b)).length = (l.map f).count b := by
  induction l with
  | nil => rfl
  | cons x t ih =>
    simp only [List.filter_cons, List.map_cons, List.count_cons]
    by_cases h : f x = b
    · simp [h, ih]
    · simp [h, ih]

/-- Claim C7: the risk matrix counts each record exactly once: summing the
    cell counts over all populated (department, risk level) keys gives the
    total number of records. -/
theorem risk_matrix_counts_sum_to_total (df : List TaskRecord) :
    ((risk_keys df).map fun p => risk_cell df p.1 p.2).sum = df.length := by
  have key := List.sum_map_count_dedup_eq_length (df.map risk_key)
  rw [List.length_map] at key
  rw [← key]
  unfold risk_keys
  refine congrArg _ (List.map_congr_left ?_)
  intro p _
  have hpred : (fun (r : TaskRecord) =>
      decide (r.department = p.1 ∧ r.risk_level = p.2)) =
      fun r => decide (risk_key r = p) := by
    funext r
    simp [decide_eq_decide, risk_key, Prod.ext_iff]
  unfold risk_cell
  rw [hpred]
  exact length_filter_eq_count risk_key df p

/-- Claim C8: the milestone status classifier maps each of the three known
    statuses to its display icon and any other status value to the unknown
    icon, and an absent completion date is rendered as the sentinel "N/A"
    rather than an error. -/
theorem milestone_classifier_total (m : MilestoneRecord) :
    status_icon "Completed" = "✅" ∧
    status_icon "In Progress" = "🔄" ∧
    status_icon "Not Started" = "⏳" ∧
    (m.status ∉ ["Completed", "In Progress", "Not Started"] →
      status_icon m.status = "❓") ∧
    (m.completion_date = none →
      render_completion_date m.completion_date = "N/A") := by
  refine ⟨rfl, rfl, rfl, fun h => ?_, fun h => ?_⟩
  · simp only [List.mem_cons, List.not_mem_nil, or_false, not_or] at h
    simp [status_icon, h.1, h.2.1, h.2.2]
  · rw [h]
    rfl

/-- Witness for C8: the classifier evaluated on a concrete milestone with
    an unrecognized status and no completion date. -/
theorem milestone_classifier_total_witness :
    status_icon "Blocked" = "❓" ∧
    render_completion_date none = "N/A" :=
  ⟨(milestone_classifier_total ⟨"m", "o", "2024-01-01", none, "Blocked"⟩).2.2.2.1
      (by decide),
    (milestone_classifier_total ⟨"m", "o", "2024-01-01", none, "Blocked"⟩).2.2.2.2
      rfl⟩

end PMDashboard
